import Mathlib

/-!
Verification development for a small URL-shortener service (`app.py`).

The service keeps a single SQLite table `urls` with columns
(`id` autoincrement primary key, `short_code` unique not-null,
`long_url` not-null, `created_at` default current-timestamp) and exposes
HTTP endpoints `POST /shorten`, `GET /<code>`, `GET /stats`, `GET /list`.

Shallow embedding choices:
* the table is a `Store`: a list of `UrlRecord` in insertion order plus the
  next autoincrement id;
* Python strings are Lean `String`s; Python slicing `s[:n]` is character
  based, embedded as `strTake` (take on the character list);
* `hashlib.md5(url).hexdigest()` is an external library call, embedded as a
  parameter `md5hex : String → String` (a fixed function, since MD5 is a
  deterministic function of its input); where a property needs the digest
  shape, the fact that a hex digest has 32 lowercase-hex characters is an
  explicit hypothesis;
* `random.choices(..., k=3)` draws fresh randomness at each call, embedded
  as a stream `rand : Nat → String` of the successive draws, consumed in
  call order;
* the wall clock that fills `created_at` is passed in as `now : Nat`;
* each request handler is a function from the store (and request data) to a
  response, returning the updated store where the handler writes.
-/

namespace UrlShortener

/-- Character-based take, embedding Python string slicing `s[:n]`. -/
def strTake (s : String) (n : Nat) : String :=
  ⟨s.data.take n⟩

/-- A row of the `urls` table:
`id` (autoincrement primary key), `short_code` (UNIQUE NOT NULL),
`long_url` (NOT NULL), `created_at` (DEFAULT CURRENT_TIMESTAMP). -/
structure UrlRecord where
  id : Nat
  short_code : String
  long_url : String
  created_at : Nat
deriving Repr, DecidableEq

/-- The `urls` table: rows in insertion order plus the next autoincrement id. -/
structure Store where
  records : List UrlRecord
  nextId : Nat
deriving Repr, DecidableEq

/-- The freshly initialized database (`init_db`): an empty `urls` table. -/
def emptyStore : Store :=
  { records := [], nextId := 1 }

/-- `SELECT id FROM urls WHERE short_code = ?` followed by a fetchone
null-check: does a record with this short code exist? -/
def existsCode (s : Store) (code : String) : Bool :=
  s.records.any fun r => r.short_code == code

/-- `SELECT long_url FROM urls WHERE short_code = ?` with fetchone:
the long URL stored under `code`, if any. -/
def lookupCode (s : Store) (code : String) : Option String :=
  (s.records.find? fun r => r.short_code == code).map fun r => r.long_url

/-- `SELECT COUNT(*) FROM urls`. -/
def countRecords (s : Store) : Nat :=
  s.records.length

/-- The store after appending one row with the next autoincrement id and
`created_at` filled from the clock. -/
def insertRow (s : Store) (code url : String) (now : Nat) : Store :=
  { records := s.records ++ [{ id := s.nextId, short_code := code,
                               long_url := url, created_at := now }],
    nextId := s.nextId + 1 }

/-- `INSERT INTO urls (short_code, long_url) VALUES (?, ?)` under the
UNIQUE constraint on `short_code`: fails (constraint violation) when the
code is already present, otherwise appends the row. -/
def insertRecord (s : Store) (code url : String) (now : Nat) : Option Store :=
  if existsCode s code then
    none
  else
    some (insertRow s code url now)

/-- The list of short codes currently in the store, in insertion order. -/
def codes (s : Store) : List String :=
  s.records.map fun r => r.short_code

/-- `generate_short_code(url, length)`: MD5-hex the URL, append 3 random
alphanumeric characters (`randChars`, one draw of the randomness stream),
and truncate the concatenation to `len` characters. -/
def generate_short_code (md5hex : String → String) (randChars : String)
    (url : String) (len : Nat) : String :=
  strTake (md5hex url ++ randChars) len

/-- The retry budget `max_attempts = 5` of `shorten_url`. -/
def max_attempts : Nat := 5

/-- The collision loop of `shorten_url`, one iteration per remaining unit
of `fuel`: check the current candidate `code` against the store; if free,
stop with it; if taken, regenerate from the URL with the current attempt
number appended (consuming the next randomness draw) and continue.  When
the fuel runs out the `for`/`else` branch reports failure (the candidate
generated in the last iteration is never checked, exactly as in the
source). -/
def allocAttempts (md5hex : String → String) (rand : Nat → String)
    (s : Store) (url : String) (code : String) (attempt fuel : Nat) :
    Option String :=
  match fuel with
  | 0 => none
  | f + 1 =>
    if existsCode s code then
      allocAttempts md5hex rand s url
        (generate_short_code md5hex (rand (attempt + 1)) (url ++ toString attempt) 6)
        (attempt + 1) f
    else
      some code

/-- The allocator: start from `generate_short_code(long_url)` (randomness
draw 0) and run the collision loop for `max_attempts` iterations. -/
def allocate (md5hex : String → String) (rand : Nat → String)
    (s : Store) (url : String) : Option String :=
  allocAttempts md5hex rand s url
    (generate_short_code md5hex (rand 0) url 6) 0 max_attempts

/-- The URL validation of `shorten_url`:
`long_url.startswith(('http://', 'https://'))`.  Python's `startswith` is
character based, embedded as a character-list comparison. -/
def validUrl (url : String) : Bool :=
  "http://".data.isPrefixOf url.data || "https://".data.isPrefixOf url.data

/-- Base of the constructed short URLs: `http://localhost:5000/`. -/
def baseUrl : String := "http://localhost:5000/"

/-- Outcome of `POST /shorten`: 400 with an error, 500 with an error, or
201 with `{short_code, short_url, long_url}`. -/
inductive ShortenResult where
  | badRequest (error : String)
  | serverError (error : String)
  | created (short_code short_url long_url : String)
deriving Repr, DecidableEq

/-- The `POST /shorten` handler.  `body` is the `url` field of the JSON
body when present (`none` embeds both a missing body and a missing field).
Returns the response together with the store after the request. -/
def shorten_url (md5hex : String → String) (rand : Nat → String)
    (s : Store) (body : Option String) (now : Nat) : ShortenResult × Store :=
  match body with
  | none => (.badRequest "URL is required", s)
  | some long_url =>
    if validUrl long_url then
      match allocate md5hex rand s long_url with
      | none => (.serverError "Failed to generate unique short code", s)
      | some short_code =>
        match insertRecord s short_code long_url now with
        | some s2 =>
          (.created short_code (baseUrl ++ short_code) long_url, s2)
        | none =>
          (.serverError "UNIQUE constraint failed: urls.short_code", s)
    else
      (.badRequest "URL must start with http:// or https://", s)

/-- Outcome of `GET /<code>`: a 302 redirect or a 404 error body. -/
inductive RedirectResult where
  | redirect302 (location : String)
  | notFound404 (error : String)
deriving Repr, DecidableEq

/-- The `GET /<code>` handler: look the code up; redirect to the stored
long URL when found, else 404 with an error body. -/
def redirect_url (s : Store) (short_code : String) : RedirectResult :=
  match lookupCode s short_code with
  | some url => .redirect302 url
  | none => .notFound404 "Short URL not found"

/-- The `GET /stats` response body. -/
structure StatsResponse where
  total_shortened_urls : Nat
  service : String
  version : String
deriving Repr, DecidableEq

/-- The `GET /stats` handler. -/
def get_stats (s : Store) : StatsResponse :=
  { total_shortened_urls := countRecords s
    service := "URL Shortener"
    version := "1.0.0" }

/-- One element of the `GET /list` response. -/
structure UrlEntry where
  short_code : String
  long_url : String
  created_at : Nat
  short_url : String
deriving Repr, DecidableEq

/-- The comparison behind `ORDER BY created_at DESC`: `a` sorts no later
than `b` when its timestamp is at least `b`'s. -/
def newestFirst (a b : UrlRecord) : Prop :=
  b.created_at ≤ a.created_at

instance : DecidableRel newestFirst := fun a b =>
  inferInstanceAs (Decidable (b.created_at ≤ a.created_at))

instance : IsTotal UrlRecord newestFirst :=
  ⟨fun a b => Nat.le_total b.created_at a.created_at⟩

instance : IsTrans UrlRecord newestFirst :=
  ⟨fun _ _ _ h1 h2 => Nat.le_trans h2 h1⟩

/-- `SELECT ... ORDER BY created_at DESC`, embedded as a stable sort by
descending timestamp (SQLite leaves the order of ties unspecified; the
stable sort is one determinization, keeping ties in table order). -/
def orderByCreatedDesc (l : List UrlRecord) : List UrlRecord :=
  List.insertionSort newestFirst l

/-- The `GET /list` response body: `recent_urls` plus `total_count`
(which the handler sets to the length of the returned list). -/
structure ListResponse where
  recent_urls : List UrlEntry
  total_count : Nat
deriving Repr, DecidableEq

/-- The `GET /list` handler:
`SELECT short_code, long_url, created_at FROM urls ORDER BY created_at DESC LIMIT 10`,
each row paired with a constructed short URL. -/
def list_urls (s : Store) : ListResponse :=
  let results := (orderByCreatedDesc s.records).take 10
  { recent_urls := results.map fun r =>
      { short_code := r.short_code
        long_url := r.long_url
        created_at := r.created_at
        short_url := baseUrl ++ r.short_code }
    total_count := results.length }

/-- The stores the service can be in: the initial store, grown by
`POST /shorten` requests.  The read-only handlers (`GET /<code>`,
`GET /stats`, `GET /list`) take the store and return a response without
producing a new store, so they cannot leave this set. -/
inductive Reachable : Store → Prop where
  | init : Reachable emptyStore
  | step (md5hex : String → String) (rand : Nat → String)
      (body : Option String) (now : Nat) {s : Store} :
      Reachable s → Reachable (shorten_url md5hex rand s body now).2

/-- Uniqueness invariant on a store: no two rows share a short code. -/
def codesUnique (s : Store) : Prop :=
  (codes s).Nodup

/-- The five candidate codes the collision loop checks for a given URL, in
order: the hash of the URL itself, then of the URL with the attempt
numbers `0`, `1`, `2`, `3` appended (randomness draws 0 through 4). -/
def candidates (md5hex : String → String) (rand : Nat → String)
    (url : String) : List String :=
  [generate_short_code md5hex (rand 0) url 6,
   generate_short_code md5hex (rand 1) (url ++ "0") 6,
   generate_short_code md5hex (rand 2) (url ++ "1") 6,
   generate_short_code md5hex (rand 3) (url ++ "2") 6,
   generate_short_code md5hex (rand 4) (url ++ "3") 6]

/-! ### Store lemmas -/

lemma existsCode_eq_true_iff (s : Store) (c : String) :
    existsCode s c = true ↔ c ∈ codes s := by
  simp only [existsCode, codes, List.any_eq_true, List.mem_map, beq_iff_eq]

lemma existsCode_eq_false_iff (s : Store) (c : String) :
    existsCode s c = false ↔ c ∉ codes s := by
  rw [← existsCode_eq_true_iff]
  cases existsCode s c <;> simp

lemma insertRecord_eq_some {s : Store} {code url : String} {now : Nat}
    {s2 : Store} (h : insertRecord s code url now = some s2) :
    existsCode s code = false ∧ s2 = insertRow s code url now := by
  unfold insertRecord at h
  split at h
  · exact absurd h (by simp)
  · next hcond =>
    have h2 : existsCode s code = false := by
      revert hcond; cases existsCode s code <;> simp
    injection h with h3
    exact ⟨h2, h3.symm⟩

lemma insertRecord_of_free {s : Store} {code : String}
    (h : existsCode s code = false) (url : String) (now : Nat) :
    insertRecord s code url now = some (insertRow s code url now) := by
  unfold insertRecord
  rw [h]
  simp

lemma codes_insertRow (s : Store) (code url : String) (now : Nat) :
    codes (insertRow s code url now) = codes s ++ [code] := by
  simp [codes, insertRow]

lemma existsCode_insertRow (s : Store) (code url : String) (now : Nat)
    (c : String) :
    existsCode (insertRow s code url now) c =
      (existsCode s c || (code == c)) := by
  simp [existsCode, insertRow, List.any_append]

lemma codes_insert {s : Store} {code url : String} {now : Nat} {s2 : Store}
    (h : insertRecord s code url now = some s2) :
    codes s2 = codes s ++ [code] := by
  obtain ⟨-, rfl⟩ := insertRecord_eq_some h
  exact codes_insertRow s code url now

lemma lookupCode_insert {s : Store} {code url : String} {now : Nat}
    {s2 : Store} (h : insertRecord s code url now = some s2) :
    lookupCode s2 code = some url := by
  obtain ⟨hfree, rfl⟩ := insertRecord_eq_some h
  rw [existsCode_eq_false_iff] at hfree
  unfold lookupCode insertRow
  rw [List.find?_append]
  have h1 : (s.records.find? fun r => r.short_code == code) = none := by
    rw [List.find?_eq_none]
    intro r hr hbeq
    exact hfree (List.mem_map.mpr ⟨r, hr, by simpa using hbeq⟩)
  rw [h1]
  simp [List.find?]

lemma lookupCode_eq_none_iff (s : Store) (c : String) :
    lookupCode s c = none ↔ existsCode s c = false := by
  rw [existsCode_eq_false_iff]
  unfold lookupCode codes
  simp only [Option.map_eq_none', List.find?_eq_none, List.mem_map, beq_iff_eq]
  constructor
  · rintro h ⟨r, hr, rfl⟩; exact h r hr rfl
  · rintro h r hr rfl; exact h ⟨r, hr, rfl⟩

lemma lookupCode_isSome_of_exists {s : Store} {c : String}
    (h : existsCode s c = true) : ∃ url, lookupCode s c = some url := by
  cases hl : lookupCode s c with
  | none => rw [lookupCode_eq_none_iff] at hl; rw [h] at hl; cases hl
  | some url => exact ⟨url, rfl⟩

/-! ### Allocator lemmas -/

/-- Unrolling the collision loop: `max_attempts = 5` iterations, each
checking one candidate; the sixth candidate (generated in the fifth
iteration when it collides) is discarded unchecked. -/
lemma allocate_unfold (md5hex : String → String) (rand : Nat → String)
    (s : Store) (url : String) :
    allocate md5hex rand s url =
      (if existsCode s (generate_short_code md5hex (rand 0) url 6) then
        if existsCode s (generate_short_code md5hex (rand 1) (url ++ "0") 6) then
          if existsCode s (generate_short_code md5hex (rand 2) (url ++ "1") 6) then
            if existsCode s (generate_short_code md5hex (rand 3) (url ++ "2") 6) then
              if existsCode s (generate_short_code md5hex (rand 4) (url ++ "3") 6) then
                none
              else some (generate_short_code md5hex (rand 4) (url ++ "3") 6)
            else some (generate_short_code md5hex (rand 3) (url ++ "2") 6)
          else some (generate_short_code md5hex (rand 2) (url ++ "1") 6)
        else some (generate_short_code md5hex (rand 1) (url ++ "0") 6)
      else some (generate_short_code md5hex (rand 0) url 6)) :=
  rfl

/-- The allocator returns exactly the first of the five candidates that is
absent from the store (`none` when all five are present). -/
theorem allocate_eq_find (md5hex : String → String) (rand : Nat → String)
    (s : Store) (url : String) :
    allocate md5hex rand s url =
      (candidates md5hex rand url).find? fun c => !existsCode s c := by
  rw [allocate_unfold]
  cases h0 : existsCode s (generate_short_code md5hex (rand 0) url 6) <;>
    cases h1 : existsCode s (generate_short_code md5hex (rand 1) (url ++ "0") 6) <;>
    cases h2 : existsCode s (generate_short_code md5hex (rand 2) (url ++ "1") 6) <;>
    cases h3 : existsCode s (generate_short_code md5hex (rand 3) (url ++ "2") 6) <;>
    cases h4 : existsCode s (generate_short_code md5hex (rand 4) (url ++ "3") 6) <;>
    simp [candidates, List.find?, h0, h1, h2, h3, h4]

/-! ### Determinism of the generator -/

/-- The lowercase hexadecimal digits an MD5 hex digest is drawn from. -/
def hexChars : List Char := "0123456789abcdef".data

/-- The five hash inputs the collision loop derives from a URL: the URL
itself, then the URL with `0`, `1`, `2`, `3` appended. -/
def suffixed (url : String) : List String :=
  [url, url ++ "0", url ++ "1", url ++ "2", url ++ "3"]

/-- The code the generator yields for a hash input once the randomness is
truncated away: the first 6 characters of the hex digest. -/
def dCode (md5hex : String → String) (u : String) : String :=
  strTake (md5hex u) 6

/-- The five candidates as determined by the hash alone. -/
def detCandidates (md5hex : String → String) (url : String) : List String :=
  (suffixed url).map (dCode md5hex)

/-- When the hash output has the 32 characters of an MD5 hex digest, the 3
appended random characters are truncated away: the generated code is the
6-character digest prefix, whatever the randomness draw. -/
lemma gsc_det {md5hex : String → String} {u : String}
    (hlen : (md5hex u).data.length = 32) (r : String) :
    generate_short_code md5hex r u 6 = dCode md5hex u := by
  unfold generate_short_code dCode strTake
  congr 1
  rw [String.data_append, List.take_append_eq_append_take, hlen]
  simp

/-- Under the digest-length assumption, the candidate list does not depend
on the randomness stream. -/
lemma candidates_det {md5hex : String → String} {url : String}
    (hlen : ∀ u ∈ suffixed url, (md5hex u).data.length = 32)
    (rand : Nat → String) :
    candidates md5hex rand url = detCandidates md5hex url := by
  have h0 := gsc_det (hlen url (by simp [suffixed])) (rand 0)
  have h1 := gsc_det (hlen (url ++ "0") (by simp [suffixed])) (rand 1)
  have h2 := gsc_det (hlen (url ++ "1") (by simp [suffixed])) (rand 2)
  have h3 := gsc_det (hlen (url ++ "2") (by simp [suffixed])) (rand 3)
  have h4 := gsc_det (hlen (url ++ "3") (by simp [suffixed])) (rand 4)
  unfold candidates detCandidates suffixed
  simp [h0, h1, h2, h3, h4]

/-! ### Shorten handler lemmas -/

/-- Inversion of a successful `POST /shorten`: the URL passed validation,
the returned code was absent before the request, the response fields are
the code, `baseUrl ++ code` and the submitted URL, and the store grew by
exactly the one new row. -/
lemma shorten_created {md5hex : String → String} {rand : Nat → String}
    {s : Store} {url : String} {now : Nat} {c su lu : String} {s2 : Store}
    (h : shorten_url md5hex rand s (some url) now = (.created c su lu, s2)) :
    validUrl url = true ∧ existsCode s c = false ∧ su = baseUrl ++ c ∧
      lu = url ∧ s2 = insertRow s c url now := by
  simp only [shorten_url] at h
  by_cases hv : validUrl url = true
  · rw [if_pos hv] at h
    split at h
    · exact absurd h (by simp)
    · rename_i c0 hall
      split at h
      · rename_i s3 hins
        obtain ⟨hfree, hs3⟩ := insertRecord_eq_some hins
        rw [Prod.mk.injEq] at h
        obtain ⟨hres, rfl⟩ := h
        injection hres with e1 e2 e3
        subst e1 e2 e3
        exact ⟨hv, hfree, rfl, rfl, hs3⟩
      · exact absurd h (by simp)
  · rw [if_neg hv] at h
    exact absurd h (by simp)

/-- A `POST /shorten` request either leaves the store unchanged or
performs exactly one successful insert on it. -/
lemma shorten_snd_cases (md5hex : String → String) (rand : Nat → String)
    (s : Store) (body : Option String) (now : Nat) :
    (shorten_url md5hex rand s body now).2 = s ∨
      ∃ c url, insertRecord s c url now =
        some (shorten_url md5hex rand s body now).2 := by
  cases body with
  | none => left; rfl
  | some url =>
    simp only [shorten_url]
    split
    · split
      · left; rfl
      · rename_i c hall
        split
        · rename_i s2 hins
          right
          exact ⟨c, url, by rw [hins]⟩
        · left; rfl
    · left; rfl

/-- Forward evaluation of `POST /shorten` when the allocator finds a free
code: the row is inserted and a 201 response is built from it. -/
lemma shorten_of_allocate_some {md5hex : String → String}
    {rand : Nat → String} {s : Store} {url : String} {c : String}
    (now : Nat) (hv : validUrl url = true)
    (halloc : allocate md5hex rand s url = some c)
    (hfree : existsCode s c = false) :
    shorten_url md5hex rand s (some url) now =
      (.created c (baseUrl ++ c) url, insertRow s c url now) := by
  have step1 : shorten_url md5hex rand s (some url) now =
      (match insertRecord s c url now with
        | some s2 => (.created c (baseUrl ++ c) url, s2)
        | none => (.serverError "UNIQUE constraint failed: urls.short_code", s)) := by
    simp only [shorten_url]
    rw [if_pos hv, halloc]
  rw [step1, insertRecord_of_free hfree url now]

/-- Forward evaluation of `POST /shorten` when the allocator exhausts its
budget: a 500 response, store untouched. -/
lemma shorten_of_allocate_none {md5hex : String → String}
    {rand : Nat → String} {s : Store} {url : String}
    (now : Nat) (hv : validUrl url = true)
    (halloc : allocate md5hex rand s url = none) :
    shorten_url md5hex rand s (some url) now =
      (.serverError "Failed to generate unique short code", s) := by
  simp only [shorten_url]
  rw [if_pos hv, halloc]

/-- A `POST /shorten` request preserves the uniqueness invariant. -/
lemma codesUnique_shorten (md5hex : String → String) (rand : Nat → String)
    (body : Option String) (now : Nat) {s : Store} (hu : codesUnique s) :
    codesUnique (shorten_url md5hex rand s body now).2 := by
  rcases shorten_snd_cases md5hex rand s body now with heq | ⟨c, url, hins⟩
  · rw [heq]; exact hu
  · have hcodes := codes_insert hins
    have hfree := (insertRecord_eq_some hins).1
    rw [existsCode_eq_false_iff] at hfree
    unfold codesUnique at hu ⊢
    rw [hcodes]
    simp [List.nodup_append, hu, hfree]

/-! ### Claims -/

/-- C1: Uniqueness invariant: in every reachable state of the Store,
`short_code` is unique across all records, and every operation preserves
this invariant (`shorten`'s check-then-insert is the only mutating one;
lookup, stats and list return responses without producing a new store);
in particular, for every valid URL accepted by `/shorten`, the returned
`short_code` is distinct from every previously issued code. -/
theorem C1_short_code_uniqueness_invariant (s : Store) (h : Reachable s) :
    codesUnique s ∧
      ∀ (md5hex : String → String) (rand : Nat → String) (url : String)
        (now : Nat) (c su lu : String) (s2 : Store),
        shorten_url md5hex rand s (some url) now = (.created c su lu, s2) →
          c ∉ codes s := by
  constructor
  · induction h with
    | init => simp [codesUnique, codes, emptyStore]
    | step md5hex rand body now hs ih =>
      exact codesUnique_shorten md5hex rand body now ih
  · intro md5hex rand url now c su lu s2 hc
    have hfree := (shorten_created hc).2.1
    rwa [existsCode_eq_false_iff] at hfree

theorem C1_short_code_uniqueness_invariant_witness :
    codesUnique (shorten_url (fun _ => "0123456789abcdef0123456789abcdef")
        (fun _ => "Zx1") emptyStore (some "http://example.com") 42).2 :=
  (C1_short_code_uniqueness_invariant _
      (Reachable.step _ _ _ _ Reachable.init)).1

/-- C2: Round-trip: inserting `(code, url)` into the Store and then
looking up that code returns exactly `url`; consequently, after a
successful `POST /shorten` of a valid URL returning `short_code` `c`,
`GET /<c>` issues a 302 redirect whose target is the original long URL. -/
theorem C2_store_roundtrip_and_redirect :
    (∀ (s : Store) (code url : String) (now : Nat) (s2 : Store),
        insertRecord s code url now = some s2 →
          lookupCode s2 code = some url) ∧
      ∀ (md5hex : String → String) (rand : Nat → String) (s : Store)
        (url : String) (now : Nat) (c su lu : String) (s2 : Store),
        shorten_url md5hex rand s (some url) now = (.created c su lu, s2) →
          lu = url ∧ redirect_url s2 c = .redirect302 url := by
  constructor
  · intro s code url now s2 h
    exact lookupCode_insert h
  · intro md5hex rand s url now c su lu s2 h
    obtain ⟨-, hfree, -, rfl, hs2⟩ := shorten_created h
    have hins : insertRecord s c lu now = some s2 := by
      rw [hs2]; exact insertRecord_of_free hfree lu now
    refine ⟨rfl, ?_⟩
    unfold redirect_url
    rw [lookupCode_insert hins]

theorem C2_store_roundtrip_and_redirect_witness :
    lookupCode (insertRow emptyStore "abc123" "http://example.com" 7)
        "abc123" = some "http://example.com" :=
  C2_store_roundtrip_and_redirect.1 emptyStore "abc123" "http://example.com"
    7 (insertRow emptyStore "abc123" "http://example.com" 7) (by decide)

/-- C3: Allocation exhaustion is atomic: for every Store state and
valid URL, if every candidate code the generator produces during the
retry loop is already present in the Store, `POST /shorten` returns 500
with an error message and the Store is left unchanged. -/
theorem C3_allocation_exhaustion_atomic (md5hex : String → String)
    (rand : Nat → String) (s : Store) (url : String) (now : Nat)
    (hv : validUrl url = true)
    (hall : ∀ c ∈ candidates md5hex rand url, existsCode s c = true) :
    shorten_url md5hex rand s (some url) now =
      (.serverError "Failed to generate unique short code", s) := by
  have hfind :
      ((candidates md5hex rand url).find? fun c => !existsCode s c) = none := by
    rw [List.find?_eq_none]
    intro c hc
    simp [hall c hc]
  exact shorten_of_allocate_none now hv (by rw [allocate_eq_find, hfind])

theorem C3_allocation_exhaustion_atomic_witness :
    shorten_url (fun _ => "cafebabe") (fun _ => "Zx1")
        { records := [{ id := 1, short_code := "cafeba",
                        long_url := "http://taken.example", created_at := 0 }],
          nextId := 2 }
        (some "http://new.example") 9 =
      (.serverError "Failed to generate unique short code",
        { records := [{ id := 1, short_code := "cafeba",
                        long_url := "http://taken.example", created_at := 0 }],
          nextId := 2 }) :=
  C3_allocation_exhaustion_atomic (fun _ => "cafebabe") (fun _ => "Zx1")
    { records := [{ id := 1, short_code := "cafeba",
                    long_url := "http://taken.example", created_at := 0 }],
      nextId := 2 }
    "http://new.example" 9 (by decide) (by decide)

/-- C4: Allocator algorithm steps: for every valid URL the allocator
examines the five candidates generated from the URL and, on retry after
attempt `a` collided, from the URL with `a` appended before hashing
(suffixes `0`..`3`, randomness draws 1..4); it checks each in order for
existence in the Store, inserts and returns the first absent one, and
fails only after all five checked candidates are present. -/
theorem C4_allocator_candidate_order (md5hex : String → String)
    (rand : Nat → String) (s : Store) (url : String) (now : Nat)
    (hv : validUrl url = true) :
    allocate md5hex rand s url =
        ((candidates md5hex rand url).find? fun c => !existsCode s c) ∧
      (∀ c, ((candidates md5hex rand url).find? fun c => !existsCode s c)
          = some c →
        existsCode s c = false ∧
          shorten_url md5hex rand s (some url) now =
            (.created c (baseUrl ++ c) url, insertRow s c url now)) ∧
      (((candidates md5hex rand url).find? fun c => !existsCode s c)
          = none →
        shorten_url md5hex rand s (some url) now =
          (.serverError "Failed to generate unique short code", s)) := by
  refine ⟨allocate_eq_find md5hex rand s url, ?_, ?_⟩
  · intro c hc
    have hfree : existsCode s c = false := by
      have hp := List.find?_some hc
      simpa using hp
    exact ⟨hfree,
      shorten_of_allocate_some now hv (by rw [allocate_eq_find, hc]) hfree⟩
  · intro hnone
    exact shorten_of_allocate_none now hv (by rw [allocate_eq_find, hnone])

theorem C4_allocator_candidate_order_witness :
    allocate (fun _ => "cafebabe") (fun _ => "Zx1") emptyStore
        "http://w.example" =
      ((candidates (fun _ => "cafebabe") (fun _ => "Zx1") "http://w.example"
        ).find? fun c => !existsCode emptyStore c) :=
  (C4_allocator_candidate_order (fun _ => "cafebabe") (fun _ => "Zx1")
    emptyStore "http://w.example" 0 (by decide)).1

/-- C5: Validation rejects without touching storage: when the body
lacks a `url` field or the url does not start with `http://` or
`https://`, the response is 400 with an error body, the store after the
request equals the store before, and the response does not depend on the
store, the hash, the randomness or the clock at all (the store is not
even read). -/
theorem C5_validation_rejects_without_storage
    (md5hex1 md5hex2 : String → String) (rand1 rand2 : Nat → String)
    (s1 s2 : Store) (body : Option String) (now1 now2 : Nat)
    (hbad : body = none ∨ ∃ url, body = some url ∧ validUrl url = false) :
    (∃ msg, (shorten_url md5hex1 rand1 s1 body now1).1 = .badRequest msg) ∧
      (shorten_url md5hex1 rand1 s1 body now1).2 = s1 ∧
      (shorten_url md5hex1 rand1 s1 body now1).1 =
        (shorten_url md5hex2 rand2 s2 body now2).1 := by
  rcases hbad with rfl | ⟨url, rfl, hv⟩
  · exact ⟨⟨"URL is required", rfl⟩, rfl, rfl⟩
  · have hv2 : ¬ validUrl url = true := by rw [hv]; simp
    have e1 : shorten_url md5hex1 rand1 s1 (some url) now1 =
        (.badRequest "URL must start with http:// or https://", s1) := by
      simp only [shorten_url]
      rw [if_neg hv2]
    have e2 : shorten_url md5hex2 rand2 s2 (some url) now2 =
        (.badRequest "URL must start with http:// or https://", s2) := by
      simp only [shorten_url]
      rw [if_neg hv2]
    rw [e1, e2]
    exact ⟨⟨"URL must start with http:// or https://", rfl⟩, rfl, rfl⟩

theorem C5_validation_rejects_without_storage_witness :
    (shorten_url (fun _ => "aa") (fun _ => "bb") emptyStore
        (some "ftp://files.example") 3).2 = emptyStore :=
  (C5_validation_rejects_without_storage (fun _ => "aa") (fun _ => "cc")
    (fun _ => "bb") (fun _ => "dd") emptyStore emptyStore
    (some "ftp://files.example") 3 4
    (Or.inr ⟨"ftp://files.example", rfl, by decide⟩)).2.1

/-- C6: Unknown-code lookup: for every short code absent from the
Store, `GET /<code>` returns 404 with an `error` string body and no
redirect; for every code present, it issues a 302 redirect to the stored
long URL. -/
theorem C6_unknown_code_404_known_302 (s : Store) (code : String) :
    (existsCode s code = false →
      redirect_url s code = .notFound404 "Short URL not found") ∧
      (existsCode s code = true →
        ∃ url, lookupCode s code = some url ∧
          redirect_url s code = .redirect302 url) := by
  constructor
  · intro h
    unfold redirect_url
    rw [(lookupCode_eq_none_iff s code).mpr h]
  · intro h
    obtain ⟨url, hurl⟩ := lookupCode_isSome_of_exists h
    refine ⟨url, hurl, ?_⟩
    unfold redirect_url
    rw [hurl]

theorem C6_unknown_code_404_known_302_witness :
    redirect_url emptyStore "abc123" =
      .notFound404 "Short URL not found" :=
  (C6_unknown_code_404_known_302 emptyStore "abc123").1 (by decide)

/-- C7: Non-idempotence of shortening: submitting the same valid URL
to `POST /shorten` twice in succession, both succeeding, creates two
distinct records with two distinct short codes — no deduplication by
URL. -/
theorem C7_no_url_dedup (md5hex : String → String)
    (rand1 rand2 : Nat → String) (s : Store) (url : String)
    (now1 now2 : Nat) (c1 su1 lu1 c2 su2 lu2 : String) (s1 s2 : Store)
    (h1 : shorten_url md5hex rand1 s (some url) now1 =
      (.created c1 su1 lu1, s1))
    (h2 : shorten_url md5hex rand2 s1 (some url) now2 =
      (.created c2 su2 lu2, s2)) :
    c1 ≠ c2 ∧ s2.records.length = s.records.length + 2 := by
  obtain ⟨-, hfree1, -, -, hs1⟩ := shorten_created h1
  obtain ⟨-, hfree2, -, -, hs2⟩ := shorten_created h2
  constructor
  · intro hEq
    rw [existsCode_eq_false_iff] at hfree2
    apply hfree2
    rw [← hEq, hs1, codes_insertRow]
    exact List.mem_append_right _ (List.mem_singleton.mpr rfl)
  · rw [hs2, hs1]
    simp [insertRow]

theorem C7_no_url_dedup_witness :
    ("aaaaaa" : String) ≠ "bbbbbb" ∧
      (insertRow (insertRow emptyStore "aaaaaa" "http://a" 1)
          "bbbbbb" "http://a" 2).records.length =
        emptyStore.records.length + 2 :=
  C7_no_url_dedup
    (fun u => if u = "http://a" then "aaaaaaaaaaaaaaaaaaaaaaaaaaaaaaaa"
      else "bbbbbbbbbbbbbbbbbbbbbbbbbbbbbbbb")
    (fun _ => "Zx1") (fun _ => "Qw2") emptyStore "http://a" 1 2
    "aaaaaa" "http://localhost:5000/aaaaaa" "http://a"
    "bbbbbb" "http://localhost:5000/bbbbbb" "http://a"
    (insertRow emptyStore "aaaaaa" "http://a" 1)
    (insertRow (insertRow emptyStore "aaaaaa" "http://a" 1)
      "bbbbbb" "http://a" 2)
    (by decide) (by decide)

/-- A store whose two rows share a `created_at` timestamp, as arises when
two inserts land within the same clock second. -/
def tieStore : Store :=
  { records :=
      [{ id := 1, short_code := "aaaaaa", long_url := "http://a",
         created_at := 5 },
       { id := 2, short_code := "bbbbbb", long_url := "http://b",
         created_at := 5 }],
    nextId := 3 }

/-- A store with two rows at distinct timestamps. -/
def twoStore : Store :=
  { records :=
      [{ id := 1, short_code := "aaaaaa", long_url := "http://a",
         created_at := 3 },
       { id := 2, short_code := "bbbbbb", long_url := "http://b",
         created_at := 8 }],
    nextId := 3 }

/-- C8 counterexample: `GET /list` is NOT strictly descending in
`created_at` on every store: on a store whose two rows share a timestamp,
the listed timestamps are `[5, 5]`, which is not strictly descending. -/
theorem C8_strict_descending_counterexample :
    ¬ List.Sorted (fun a b => a > b)
        ((list_urls tieStore).recent_urls.map fun e => e.created_at) := by
  decide

/-- C8 amended: Listing contract: for every Store state, `GET /list`
returns at most 10 records, ordered by non-increasing `created_at` (most
recent first; ties, which arise when rows share a timestamp, may appear
in either order), each record carrying the `short_code`, `long_url` and
`created_at` of a stored row together with a constructed `short_url`. -/
theorem C8_listing_contract (s : Store) :
    (list_urls s).recent_urls.length ≤ 10 ∧
      List.Sorted (fun a b => a ≥ b)
        ((list_urls s).recent_urls.map fun e => e.created_at) ∧
      ∀ e ∈ (list_urls s).recent_urls, ∃ r ∈ s.records,
        e.short_code = r.short_code ∧ e.long_url = r.long_url ∧
          e.created_at = r.created_at ∧ e.short_url = baseUrl ++ r.short_code := by
  refine ⟨?_, ?_, ?_⟩
  · simp only [list_urls, List.length_map, List.length_take]
    omega
  · have hsorted : List.Sorted newestFirst (orderByCreatedDesc s.records) :=
      List.sorted_insertionSort newestFirst s.records
    have htake :
        List.Sorted newestFirst ((orderByCreatedDesc s.records).take 10) :=
      List.Pairwise.sublist (List.take_sublist 10 _) hsorted
    simp only [list_urls, List.map_map]
    exact List.pairwise_map.mpr htake
  · intro e he
    simp only [list_urls, List.mem_map] at he
    obtain ⟨r, hr, rfl⟩ := he
    refine ⟨r, ?_, rfl, rfl, rfl, rfl⟩
    have h2 : r ∈ orderByCreatedDesc s.records := List.take_subset _ _ hr
    unfold orderByCreatedDesc at h2
    exact ((List.perm_insertionSort newestFirst s.records).mem_iff).mp h2

theorem C8_listing_contract_witness :
    (list_urls twoStore).recent_urls.length ≤ 10 :=
  (C8_listing_contract twoStore).1

/-- C9: The code generator is deterministic despite mixing in
randomness: because an MD5 hex digest has 32 characters, the 32-character
digest alone fills the 6-character output and the 3 random characters
are always truncated away — for any URL, the generated code is the first
6 characters of the digest (lowercase hexadecimal when the digest is),
identical across any two randomness draws. -/
theorem C9_generator_deterministic (md5hex : String → String)
    (url r1 r2 : String) (hlen : (md5hex url).data.length = 32) :
    generate_short_code md5hex r1 url 6 = dCode md5hex url ∧
      generate_short_code md5hex r1 url 6 =
        generate_short_code md5hex r2 url 6 ∧
      (generate_short_code md5hex r1 url 6).data.length = 6 ∧
      ((∀ ch ∈ (md5hex url).data, ch ∈ hexChars) →
        ∀ ch ∈ (generate_short_code md5hex r1 url 6).data, ch ∈ hexChars) := by
  have k1 := gsc_det hlen r1
  have k2 := gsc_det hlen r2
  refine ⟨k1, k1.trans k2.symm, ?_, ?_⟩
  · rw [k1]
    simp [dCode, strTake, List.length_take, hlen]
  · intro hhex ch hch
    rw [k1] at hch
    simp only [dCode, strTake] at hch
    exact hhex ch (List.take_subset 6 _ hch)

theorem C9_generator_deterministic_witness :
    generate_short_code (fun _ => "0123456789abcdef0123456789abcdef")
        "abc" "http://w" 6 =
      generate_short_code (fun _ => "0123456789abcdef0123456789abcdef")
        "xyz" "http://w" 6 :=
  (C9_generator_deterministic (fun _ => "0123456789abcdef0123456789abcdef")
    "http://w" "abc" "xyz" (by decide)).2.1

/-- C10: Repeated shortening of one URL deterministically exhausts the
retry budget: with the generator deterministic (32-character digests, so
randomness is truncated away), if the 5 derived candidate codes
`e0..e4` — from the URL itself and the URL with suffixes `0`, `1`, `2`,
`3` — are pairwise distinct and absent initially, then the first 5
`POST /shorten` requests for that URL succeed, inserting `e0..e4` in
order, and the 6th request returns 500 (allocation exhausted) and inserts
nothing: every candidate the generator can produce is already taken. -/
theorem C10_repeated_shortening_exhausts (md5hex : String → String)
    (r1 r2 r3 r4 r5 r6 : Nat → String) (s0 : Store) (url : String)
    (t1 t2 t3 t4 t5 t6 : Nat) (e0 e1 e2 e3 e4 : String)
    (S1 S2 S3 S4 S5 : Store)
    (hv : validUrl url = true)
    (hlen : ∀ u ∈ suffixed url, (md5hex u).data.length = 32)
    (he0 : e0 = dCode md5hex url)
    (he1 : e1 = dCode md5hex (url ++ "0"))
    (he2 : e2 = dCode md5hex (url ++ "1"))
    (he3 : e3 = dCode md5hex (url ++ "2"))
    (he4 : e4 = dCode md5hex (url ++ "3"))
    (hdist : [e0, e1, e2, e3, e4].Pairwise (· ≠ ·))
    (habs : ∀ c ∈ [e0, e1, e2, e3, e4], existsCode s0 c = false)
    (hS1 : S1 = insertRow s0 e0 url t1)
    (hS2 : S2 = insertRow S1 e1 url t2)
    (hS3 : S3 = insertRow S2 e2 url t3)
    (hS4 : S4 = insertRow S3 e3 url t4)
    (hS5 : S5 = insertRow S4 e4 url t5) :
    shorten_url md5hex r1 s0 (some url) t1 =
        (.created e0 (baseUrl ++ e0) url, S1) ∧
      shorten_url md5hex r2 S1 (some url) t2 =
        (.created e1 (baseUrl ++ e1) url, S2) ∧
      shorten_url md5hex r3 S2 (some url) t3 =
        (.created e2 (baseUrl ++ e2) url, S3) ∧
      shorten_url md5hex r4 S3 (some url) t4 =
        (.created e3 (baseUrl ++ e3) url, S4) ∧
      shorten_url md5hex r5 S4 (some url) t5 =
        (.created e4 (baseUrl ++ e4) url, S5) ∧
      shorten_url md5hex r6 S5 (some url) t6 =
        (.serverError "Failed to generate unique short code", S5) := by
  have hdet : detCandidates md5hex url = [e0, e1, e2, e3, e4] := by
    simp [detCandidates, suffixed, dCode, he0, he1, he2, he3, he4]
  have hp0 := List.pairwise_cons.mp hdist
  have d01 : e0 ≠ e1 := hp0.1 e1 (by simp)
  have d02 : e0 ≠ e2 := hp0.1 e2 (by simp)
  have d03 : e0 ≠ e3 := hp0.1 e3 (by simp)
  have d04 : e0 ≠ e4 := hp0.1 e4 (by simp)
  have hp1 := List.pairwise_cons.mp hp0.2
  have d12 : e1 ≠ e2 := hp1.1 e2 (by simp)
  have d13 : e1 ≠ e3 := hp1.1 e3 (by simp)
  have d14 : e1 ≠ e4 := hp1.1 e4 (by simp)
  have hp2 := List.pairwise_cons.mp hp1.2
  have d23 : e2 ≠ e3 := hp2.1 e3 (by simp)
  have d24 : e2 ≠ e4 := hp2.1 e4 (by simp)
  have hp3 := List.pairwise_cons.mp hp2.2
  have d34 : e3 ≠ e4 := hp3.1 e4 (by simp)
  have a0 : existsCode s0 e0 = false := habs e0 (by simp)
  have a1 : existsCode s0 e1 = false := habs e1 (by simp)
  have a2 : existsCode s0 e2 = false := habs e2 (by simp)
  have a3 : existsCode s0 e3 = false := habs e3 (by simp)
  have a4 : existsCode s0 e4 = false := habs e4 (by simp)
  have x10 : existsCode S1 e0 = true := by
    rw [hS1, existsCode_insertRow, a0]; simp
  have x11 : existsCode S1 e1 = false := by
    rw [hS1, existsCode_insertRow, a1]; simp [d01]
  have x12 : existsCode S1 e2 = false := by
    rw [hS1, existsCode_insertRow, a2]; simp [d02]
  have x13 : existsCode S1 e3 = false := by
    rw [hS1, existsCode_insertRow, a3]; simp [d03]
  have x14 : existsCode S1 e4 = false := by
    rw [hS1, existsCode_insertRow, a4]; simp [d04]
  have x20 : existsCode S2 e0 = true := by
    rw [hS2, existsCode_insertRow, x10]; simp
  have x21 : existsCode S2 e1 = true := by
    rw [hS2, existsCode_insertRow, x11]; simp
  have x22 : existsCode S2 e2 = false := by
    rw [hS2, existsCode_insertRow, x12]; simp [d12]
  have x23 : existsCode S2 e3 = false := by
    rw [hS2, existsCode_insertRow, x13]; simp [d13]
  have x24 : existsCode S2 e4 = false := by
    rw [hS2, existsCode_insertRow, x14]; simp [d14]
  have x30 : existsCode S3 e0 = true := by
    rw [hS3, existsCode_insertRow, x20]; simp
  have x31 : existsCode S3 e1 = true := by
    rw [hS3, existsCode_insertRow, x21]; simp
  have x32 : existsCode S3 e2 = true := by
    rw [hS3, existsCode_insertRow, x22]; simp
  have x33 : existsCode S3 e3 = false := by
    rw [hS3, existsCode_insertRow, x23]; simp [d23]
  have x34 : existsCode S3 e4 = false := by
    rw [hS3, existsCode_insertRow, x24]; simp [d24]
  have x40 : existsCode S4 e0 = true := by
    rw [hS4, existsCode_insertRow, x30]; simp
  have x41 : existsCode S4 e1 = true := by
    rw [hS4, existsCode_insertRow, x31]; simp
  have x42 : existsCode S4 e2 = true := by
    rw [hS4, existsCode_insertRow, x32]; simp
  have x43 : existsCode S4 e3 = true := by
    rw [hS4, existsCode_insertRow, x33]; simp
  have x44 : existsCode S4 e4 = false := by
    rw [hS4, existsCode_insertRow, x34]; simp [d34]
  have x50 : existsCode S5 e0 = true := by
    rw [hS5, existsCode_insertRow, x40]; simp
  have x51 : existsCode S5 e1 = true := by
    rw [hS5, existsCode_insertRow, x41]; simp
  have x52 : existsCode S5 e2 = true := by
    rw [hS5, existsCode_insertRow, x42]; simp
  have x53 : existsCode S5 e3 = true := by
    rw [hS5, existsCode_insertRow, x43]; simp
  have x54 : existsCode S5 e4 = true := by
    rw [hS5, existsCode_insertRow, x44]; simp
  have alloc0 : allocate md5hex r1 s0 url = some e0 := by
    rw [allocate_eq_find, candidates_det hlen r1, hdet]
    simp [List.find?, a0]
  have alloc1 : allocate md5hex r2 S1 url = some e1 := by
    rw [allocate_eq_find, candidates_det hlen r2, hdet]
    simp [List.find?, x10, x11]
  have alloc2 : allocate md5hex r3 S2 url = some e2 := by
    rw [allocate_eq_find, candidates_det hlen r3, hdet]
    simp [List.find?, x20, x21, x22]
  have alloc3 : allocate md5hex r4 S3 url = some e3 := by
    rw [allocate_eq_find, candidates_det hlen r4, hdet]
    simp [List.find?, x30, x31, x32, x33]
  have alloc4 : allocate md5hex r5 S4 url = some e4 := by
    rw [allocate_eq_find, candidates_det hlen r5, hdet]
    simp [List.find?, x40, x41, x42, x43, x44]
  have alloc5 : allocate md5hex r6 S5 url = none := by
    rw [allocate_eq_find, candidates_det hlen r6, hdet]
    simp [List.find?, x50, x51, x52, x53, x54]
  refine ⟨?_, ?_, ?_, ?_, ?_, ?_⟩
  · rw [hS1]; exact shorten_of_allocate_some t1 hv alloc0 a0
  · rw [hS2]; exact shorten_of_allocate_some t2 hv alloc1 x11
  · rw [hS3]; exact shorten_of_allocate_some t3 hv alloc2 x22
  · rw [hS4]; exact shorten_of_allocate_some t4 hv alloc3 x33
  · rw [hS5]; exact shorten_of_allocate_some t5 hv alloc4 x44
  · exact shorten_of_allocate_none t6 hv alloc5

/-- A mock of `hashlib.md5(...).hexdigest()` for concrete runs: distinct
32-character digests for the five hash inputs derived from `http://w`. -/
def mockDigest : String → String := fun u =>
  if u = "http://w" then "aaaaaaaaaaaaaaaaaaaaaaaaaaaaaaaa"
  else if u = "http://w0" then "bbbbbbbbbbbbbbbbbbbbbbbbbbbbbbbb"
  else if u = "http://w1" then "cccccccccccccccccccccccccccccccc"
  else if u = "http://w2" then "dddddddddddddddddddddddddddddddd"
  else "eeeeeeeeeeeeeeeeeeeeeeeeeeeeeeee"

theorem C10_repeated_shortening_exhausts_witness :
    shorten_url mockDigest (fun _ => "Zx1") emptyStore (some "http://w") 1 =
      (.created (dCode mockDigest "http://w")
        (baseUrl ++ dCode mockDigest "http://w") "http://w",
        insertRow emptyStore (dCode mockDigest "http://w") "http://w" 1) :=
  (C10_repeated_shortening_exhausts mockDigest
    (fun _ => "Zx1") (fun _ => "Zx1") (fun _ => "Zx1") (fun _ => "Zx1")
    (fun _ => "Zx1") (fun _ => "Zx1") emptyStore "http://w" 1 2 3 4 5 6
    (dCode mockDigest "http://w") (dCode mockDigest ("http://w" ++ "0"))
    (dCode mockDigest ("http://w" ++ "1"))
    (dCode mockDigest ("http://w" ++ "2"))
    (dCode mockDigest ("http://w" ++ "3"))
    (insertRow emptyStore (dCode mockDigest "http://w") "http://w" 1)
    (insertRow (insertRow emptyStore (dCode mockDigest "http://w")
      "http://w" 1) (dCode mockDigest ("http://w" ++ "0")) "http://w" 2)
    (insertRow (insertRow (insertRow emptyStore
      (dCode mockDigest "http://w") "http://w" 1)
      (dCode mockDigest ("http://w" ++ "0")) "http://w" 2)
      (dCode mockDigest ("http://w" ++ "1")) "http://w" 3)
    (insertRow (insertRow (insertRow (insertRow emptyStore
      (dCode mockDigest "http://w") "http://w" 1)
      (dCode mockDigest ("http://w" ++ "0")) "http://w" 2)
      (dCode mockDigest ("http://w" ++ "1")) "http://w" 3)
      (dCode mockDigest ("http://w" ++ "2")) "http://w" 4)
    (insertRow (insertRow (insertRow (insertRow (insertRow emptyStore
      (dCode mockDigest "http://w") "http://w" 1)
      (dCode mockDigest ("http://w" ++ "0")) "http://w" 2)
      (dCode mockDigest ("http://w" ++ "1")) "http://w" 3)
      (dCode mockDigest ("http://w" ++ "2")) "http://w" 4)
      (dCode mockDigest ("http://w" ++ "3")) "http://w" 5)
    (by decide) (by decide) rfl rfl rfl rfl rfl (by decide) (by decide)
    rfl rfl rfl rfl rfl).1

end UrlShortener
